import Mathlib

/-!
Verification of the iscc-service task orchestration layer.

The Python sources embedded here are `iscc_service/tasks.py` (task store and
background task runner), `iscc_service/main.py` (upload gate of `from_file`)
and `iscc_service/tools.py` (`code_to_bits` / `code_to_int`).

External collaborators (the blake3 hash, the tika sniffer, the downloader,
the iscc fingerprint library) appear as explicit function or outcome
parameters: the repository only calls them through their interface.
-/

namespace IsccService

/-- A JSON value, as produced by pydantic serialization and `json.load`. -/
inductive Json where
  | null : Json
  | str (s : String) : Json
  | num (n : Int) : Json
  | obj (fields : List (String × Json)) : Json
  | arr (elems : List Json) : Json
deriving Repr

/-- A JSON object body: what a Python `dict` with string keys holds. -/
abbrev Jobj := List (String × Json)

/--
The task record of `tasks.py` (`class TaskResult(URLRequest)`).
Modelled from the spec: the base class `URLRequest` lives in
`iscc_service/models.py`, which is not among the provided sources; per the
spec's data model it carries the caller-supplied inputs `url` (required),
`title` and `extra` (optional).  The remaining five optional fields are
declared in `tasks.py` itself.  `none` in an optional field means the field
was never set (pydantic "unset"), matching `exclude_unset=True` semantics.
-/
structure TaskResult where
  url : String
  title : Option String := none
  extra : Option String := none
  task_id : Option String := none
  filename : Option String := none
  status : Option String := none
  message : Option String := none
  result : Option Jobj := none
deriving Repr

/-- UTF-8 bytes of a string, as Python's `s.encode("utf-8")`. -/
def utf8Bytes (s : String) : List Nat :=
  s.toUTF8.toList.map (fun b => b.toNat)

/-- `tasks.py` `url_to_task_id`: the blake3 hex digest of the UTF-8 encoded
URL.  The blake3 hash itself is an external library, passed in as `b3`. -/
def url_to_task_id (b3 : List Nat → String) (url : String) : String :=
  b3 (utf8Bytes url)

/-- `tasks.py` `TaskResult.set_task_id`: sets `task_id` to the blake3 hex
digest of the UTF-8 encoded url and sets `status` to `"pending"`. -/
def set_task_id (b3 : List Nat → String) (t : TaskResult) : TaskResult :=
  { t with task_id := some (b3 (utf8Bytes t.url)), status := some "pending" }

/-- Python's `str(x)` for the optional `task_id` as used in the f-string of
`task_id_to_task_path`: `None` prints as `"None"`. -/
def taskIdStr : Option String → String
  | some s => s
  | none => "None"

/-- `os.path.join(dir, name)` for a directory without a trailing separator,
as `tempfile.gettempdir()` returns. -/
def joinPath (dir name : String) : String := dir ++ "/" ++ name

/-- `tasks.py` `task_id_to_task_path`: the well-known temp-directory path,
`tmpdir` standing for `tempfile.gettempdir()`. -/
def task_id_to_task_path (tmpdir : String) (task_id : String) : String :=
  joinPath tmpdir ("task-" ++ task_id ++ ".json")

/-- One optional pydantic field of the serialized record: present exactly
when set. -/
def optField {α : Type} (k : String) (f : α → Json) (o : Option α) :
    List (String × Json) :=
  match o with
  | none => []
  | some v => [(k, f v)]

/-- The fields of `TaskResult.json(exclude_unset=True)`, in declaration
order; unset optional fields are omitted. -/
def taskFields (t : TaskResult) : List (String × Json) :=
  [("url", Json.str t.url)]
    ++ optField "title" Json.str t.title
    ++ optField "extra" Json.str t.extra
    ++ optField "task_id" Json.str t.task_id
    ++ optField "filename" Json.str t.filename
    ++ optField "status" Json.str t.status
    ++ optField "message" Json.str t.message
    ++ optField "result" Json.obj t.result

/-- `self.json(exclude_unset=True)`: the JSON serialization of a task. -/
def serializeTask (t : TaskResult) : Json := Json.obj (taskFields t)

/-- The filesystem as the task store sees it: path to file contents. -/
def Store := String → Option Json

/-- The empty filesystem. -/
def emptyStore : Store := fun _ => none

/-- `tasks.py` `TaskResult.save`: writes the serialized task to the task
path, replacing whatever was there. -/
def TaskResult.save (t : TaskResult) (tmpdir : String) (fs : Store) : Store :=
  fun p =>
    if p = task_id_to_task_path tmpdir (taskIdStr t.task_id) then
      some (serializeTask t)
    else fs p

/-- Reads a JSON value as a string, as pydantic validation of a `str` field. -/
def asStr : Json → Option String
  | Json.str s => some s
  | _ => none

/-- Reads a JSON value as an object, as pydantic validation of a `dict`
field. -/
def asObj : Json → Option Jobj
  | Json.obj fields => some fields
  | _ => none

/-- Reads an optional string field: absent means unset, present must be a
string. -/
def getOptStr (fields : List (String × Json)) (k : String) :
    Option (Option String) :=
  match List.lookup k fields with
  | none => some none
  | some j => (asStr j).map some

/-- Reads an optional dict field: absent means unset, present must be an
object. -/
def getOptObj (fields : List (String × Json)) (k : String) :
    Option (Option Jobj) :=
  match List.lookup k fields with
  | none => some none
  | some j => (asObj j).map some

/-- `TaskResult(**json.load(infile))`: pydantic reconstruction of a task
from a JSON value.  Fails (`none`) when the value is not an object, the
required `url` is missing or not a string, or an optional field has the
wrong shape. -/
def parseTask (j : Json) : Option TaskResult := do
  let fields ← asObj j
  let urlJ ← List.lookup "url" fields
  let url ← asStr urlJ
  let title ← getOptStr fields "title"
  let extra ← getOptStr fields "extra"
  let task_id ← getOptStr fields "task_id"
  let filename ← getOptStr fields "filename"
  let status ← getOptStr fields "status"
  let message ← getOptStr fields "message"
  let result ← getOptObj fields "result"
  pure ⟨url, title, extra, task_id, filename, status, message, result⟩

/-- The error of the task-store read. -/
inductive LoadError where
  | notFound : LoadError
deriving Repr, DecidableEq

/-- `tasks.py` `load_task`.  Modelled from the spec: the translation of the
raised exceptions (missing file, undecodable record) into the client-visible
`NotFound` happens in the poll handler, which is repository code not among
the provided sources; per the spec the load "fails with NotFound if absent
or corrupt". -/
def load_task (tmpdir : String) (task_id : String) (fs : Store) :
    Except LoadError TaskResult :=
  match fs (task_id_to_task_path tmpdir task_id) with
  | none => Except.error LoadError.notFound
  | some j =>
    match parseTask j with
    | none => Except.error LoadError.notFound
    | some t => Except.ok t

/-- `os.path.basename` for POSIX paths: the part after the last slash. -/
def basename (p : String) : String :=
  String.mk (p.data.foldl (fun acc c => if c = '/' then [] else acc ++ [c]) [])

/-- The observable trace of one `process_url` run: the final in-memory
task, the final filesystem, every in-memory snapshot after each field
assignment, and every task object passed to `save`, in order. -/
structure RunTrace where
  finalTask : TaskResult
  finalStore : Store
  memTasks : List TaskResult
  savedTasks : List TaskResult

/-- `tasks.py` `process_url`, the task runner.  `dl` is the outcome of
`download_file` (local path, or the exception's type name), `comp` the
outcome of `iscc.code_iscc` (result dict, or the exception's type name),
`isccNorm` stands for `ISCC(**result).dict(exclude_unset=True)`, and
`elapsed` for the formatted timer value. -/
def process_url (dl : Except String String) (comp : Except String Jobj)
    (isccNorm : Jobj → Jobj) (elapsed : String) (tmpdir : String)
    (t0 : TaskResult) (fs : Store) : RunTrace :=
  let t1 := { t0 with status := some "downloading" }
  let fs1 := t1.save tmpdir fs
  match dl with
  | Except.error e =>
    let t2 := { t1 with status := some "failed" }
    let t3 := { t2 with message := some ("download failed with " ++ e) }
    let fs2 := t3.save tmpdir fs1
    ⟨t3, fs2, [t1, t2, t3], [t1, t3]⟩
  | Except.ok local_path =>
    let t2 := { t1 with status := some "processing" }
    let t3 := { t2 with filename := some (basename local_path) }
    let fs2 := t3.save tmpdir fs1
    match comp with
    | Except.error e =>
      let t4 := { t3 with status := some "failed" }
      let t5 := { t4 with message := some ("processing failed with " ++ e) }
      ⟨t5, fs2, [t1, t2, t3, t4, t5], [t1, t3]⟩
    | Except.ok r =>
      let t4 := { t3 with status := some "success" }
      let t5 := { t4 with result := some (isccNorm r) }
      let t6 := { t5 with message := some ("Processing Time: " ++ elapsed) }
      let fs3 := t6.save tmpdir fs2
      ⟨t6, fs3, [t1, t2, t3, t4, t5, t6], [t1, t3, t6]⟩

/-- Collapses consecutive equal statuses: the sequence of status values a
task takes, read off a snapshot list. -/
def squeeze : List String → List String
  | [] => []
  | [a] => [a]
  | a :: b :: rest =>
    if a = b then squeeze (b :: rest) else a :: squeeze (b :: rest)

/-- The status values of a list of snapshots (unset printed as empty). -/
def statusesOf (ts : List TaskResult) : List String :=
  ts.map (fun t => t.status.getD "")

/-- The sequence of distinct consecutive status values over snapshots. -/
def statusTrace (ts : List TaskResult) : List String :=
  squeeze (statusesOf ts)

/-- The canonical status chain of the spec, ending in terminal `t`. -/
def statusChain (t : String) : List String :=
  ["pending", "downloading", "processing", t]

/-- An HTTP error raised by a request handler (`HTTPException`). -/
structure HttpError where
  statusCode : Nat
  detail : String
deriving Repr, DecidableEq

/-- Outcome of the `from_file` handler: a 415 rejection at the upload gate,
or the fingerprint result of the rest of the pipeline. -/
inductive FromFileResult where
  | rejected (err : HttpError) : FromFileResult
  | processed (out : Jobj) : FromFileResult
deriving Repr

/-- The bytes the media-type sniffer reads.  Modelled from the spec: the
upload gate classifies from a bounded leading chunk of at most 4096 bytes;
in the provided source `main.py` delegates the read to the external
detector, and the handler variant that reads the chunk explicitly is
repository code not among the provided sources. -/
def sniffInput (stream : List Nat) : List Nat := stream.take 4096

/-- `main.py` `from_file`, upload-gate portion.  `sniff` is the external
media-type detector, `supported` the `SUPPORTED_MIME_TYPES` list, and
`pipeline` the remainder of the handler (tika parsing, temp storage,
fingerprint computation), which runs only past the gate. -/
def from_file (sniff : List Nat → String) (supported : List String)
    (pipeline : List Nat → String → String → Jobj)
    (stream : List Nat) (title extra : String) : FromFileResult :=
  let media_type := sniff (sniffInput stream)
  if media_type ∉ supported then
    FromFileResult.rejected
      ⟨415, "Unsupported media type '" ++ media_type
        ++ "'. Please request support at "
        ++ "https://github.com/iscc/iscc-service/issues."⟩
  else
    FromFileResult.processed (pipeline stream title extra)

/-- The detected media type of an uploaded stream, as the gate computes it. -/
def classifyType (sniff : List Nat → String) (stream : List Nat) : String :=
  sniff (sniffInput stream)

/-- The `k` lowest bits of a byte, most significant first, as `BitArray`
lays a byte out. -/
def bitsOfByte : Nat → Nat → List Bool
  | 0, _ => []
  | k + 1, b => bitsOfByte k (b / 2) ++ [b % 2 == 1]

/-- The bit sequence of a byte string, as `BitArray(data)` holds it: the
bits of each byte in order. -/
def bytesToBits : List Nat → List Bool
  | [] => []
  | b :: rest => bitsOfByte 8 b ++ bytesToBits rest

/-- `BitArray.bin`: the bits rendered as a string of `0` and `1`. -/
def bitsToString (bs : List Bool) : String :=
  String.mk (bs.map (fun b => if b then '1' else '0'))

/-- `BitArray.uint`: the bits read as a big-endian unsigned integer. -/
def bitsVal (bs : List Bool) : Nat :=
  bs.foldl (fun acc b => 2 * acc + (if b then 1 else 0)) 0

/-- A bitstring of `0`/`1` characters read as a big-endian binary numeral. -/
def bitStringVal (s : String) : Nat :=
  s.data.foldl (fun acc c => 2 * acc + (if c = '1' then 1 else 0)) 0

/-- `tools.py` `code_to_bits`: decodes the code, drops the one-byte header,
and renders the body's bits.  `decode` is the external `iscc.decode`,
returning the decoded byte string when it succeeds. -/
def code_to_bits (decode : String → Option (List Nat)) (code : String) :
    Option String :=
  (decode code).map (fun data => bitsToString (bytesToBits (data.drop 1)))

/-- `tools.py` `code_to_int`: decodes the code, drops the one-byte header,
and reads the body as a big-endian unsigned integer. -/
def code_to_int (decode : String → Option (List Nat)) (code : String) :
    Option Nat :=
  (decode code).map (fun data =>
    (data.drop 1).foldl (fun acc b => 256 * acc + b) 0)

/-! ### Lemmas about the serialized record -/

theorem lookup_append (k : String) (l₁ l₂ : List (String × Json)) :
    List.lookup k (l₁ ++ l₂)
      = (List.lookup k l₁).orElse (fun _ => List.lookup k l₂) := by
  induction l₁ with
  | nil => simp [List.lookup]
  | cons hd tl ih =>
    obtain ⟨k', v⟩ := hd
    by_cases h : k = k'
    · subst h
      simp [List.lookup, Option.orElse]
    · have hb : (k == k') = false := by simp [h]
      cases hv : List.lookup k tl <;>
        simp [List.lookup, hb, ih, hv, Option.orElse]

theorem lookup_optField_self {α : Type} (k : String) (f : α → Json)
    (o : Option α) : List.lookup k (optField k f o) = o.map f := by
  cases o <;> simp [optField, List.lookup]

theorem lookup_optField_ne {α : Type} {k k' : String} (h : k ≠ k')
    (f : α → Json) (o : Option α) :
    List.lookup k (optField k' f o) = none := by
  have hb : (k == k') = false := by simp [h]
  cases o <;> simp [optField, List.lookup, hb]

theorem lookup_url (t : TaskResult) :
    List.lookup "url" (taskFields t) = some (Json.str t.url) := by
  simp [taskFields, List.lookup]

theorem lookup_title (t : TaskResult) :
    List.lookup "title" (taskFields t) = t.title.map Json.str := by
  simp [taskFields, lookup_append, List.lookup, lookup_optField_self,
    lookup_optField_ne, Option.orElse]
  cases t.title <;> simp [lookup_optField_self, lookup_optField_ne,
    Option.orElse]

theorem lookup_extra (t : TaskResult) :
    List.lookup "extra" (taskFields t) = t.extra.map Json.str := by
  simp [taskFields, lookup_append, List.lookup, lookup_optField_self,
    lookup_optField_ne, Option.orElse]
  cases t.extra <;> simp [lookup_optField_self, lookup_optField_ne,
    Option.orElse]

theorem lookup_task_id (t : TaskResult) :
    List.lookup "task_id" (taskFields t) = t.task_id.map Json.str := by
  simp [taskFields, lookup_append, List.lookup, lookup_optField_self,
    lookup_optField_ne, Option.orElse]
  cases t.task_id <;> simp [lookup_optField_self, lookup_optField_ne,
    Option.orElse]

theorem lookup_filename (t : TaskResult) :
    List.lookup "filename" (taskFields t) = t.filename.map Json.str := by
  simp [taskFields, lookup_append, List.lookup, lookup_optField_self,
    lookup_optField_ne, Option.orElse]
  cases t.filename <;> simp [lookup_optField_self, lookup_optField_ne,
    Option.orElse]

theorem lookup_status (t : TaskResult) :
    List.lookup "status" (taskFields t) = t.status.map Json.str := by
  simp [taskFields, lookup_append, List.lookup, lookup_optField_self,
    lookup_optField_ne, Option.orElse]
  cases t.status <;> simp [lookup_optField_self, lookup_optField_ne,
    Option.orElse]

theorem lookup_message (t : TaskResult) :
    List.lookup "message" (taskFields t) = t.message.map Json.str := by
  simp [taskFields, lookup_append, List.lookup, lookup_optField_self,
    lookup_optField_ne, Option.orElse]
  cases t.message <;> simp [lookup_optField_self, lookup_optField_ne,
    Option.orElse]

theorem lookup_result (t : TaskResult) :
    List.lookup "result" (taskFields t) = t.result.map Json.obj := by
  simp [taskFields, lookup_append, List.lookup, lookup_optField_self,
    lookup_optField_ne, Option.orElse]

theorem getOptStr_title (t : TaskResult) :
    getOptStr (taskFields t) "title" = some t.title := by
  unfold getOptStr
  rw [lookup_title]
  cases t.title <;> simp [asStr]

theorem getOptStr_extra (t : TaskResult) :
    getOptStr (taskFields t) "extra" = some t.extra := by
  unfold getOptStr
  rw [lookup_extra]
  cases t.extra <;> simp [asStr]

theorem getOptStr_task_id (t : TaskResult) :
    getOptStr (taskFields t) "task_id" = some t.task_id := by
  unfold getOptStr
  rw [lookup_task_id]
  cases t.task_id <;> simp [asStr]

theorem getOptStr_filename (t : TaskResult) :
    getOptStr (taskFields t) "filename" = some t.filename := by
  unfold getOptStr
  rw [lookup_filename]
  cases t.filename <;> simp [asStr]

theorem getOptStr_status (t : TaskResult) :
    getOptStr (taskFields t) "status" = some t.status := by
  unfold getOptStr
  rw [lookup_status]
  cases t.status <;> simp [asStr]

theorem getOptStr_message (t : TaskResult) :
    getOptStr (taskFields t) "message" = some t.message := by
  unfold getOptStr
  rw [lookup_message]
  cases t.message <;> simp [asStr]

theorem getOptObj_result (t : TaskResult) :
    getOptObj (taskFields t) "result" = some t.result := by
  unfold getOptObj
  rw [lookup_result]
  cases t.result <;> simp [asObj]

/-- Serialization with unset fields omitted parses back to the same task. -/
theorem parse_serialize (t : TaskResult) :
    parseTask (serializeTask t) = some t := by
  simp [parseTask, serializeTask, asObj, lookup_url, asStr, getOptStr_title,
    getOptStr_extra, getOptStr_task_id, getOptStr_filename, getOptStr_status,
    getOptStr_message, getOptObj_result]

/-- A saved task loads back unchanged, whatever the store held before. -/
theorem load_after_save (tmpdir tid : String) (t : TaskResult) (fs : Store)
    (h : t.task_id = some tid) :
    load_task tmpdir tid (t.save tmpdir fs) = Except.ok t := by
  simp [load_task, TaskResult.save, h, taskIdStr, parse_serialize]

/-! ### Lemmas about bitstrings -/

theorem bitsVal_foldl (bs : List Bool) (acc : Nat) :
    bs.foldl (fun a b => 2 * a + (if b then 1 else 0)) acc
      = acc * 2 ^ bs.length + bitsVal bs := by
  induction bs generalizing acc with
  | nil => simp [bitsVal]
  | cons b rest ih =>
    simp only [List.foldl_cons, List.length_cons, bitsVal]
    rw [ih, ih (2 * 0 + if b then 1 else 0)]
    ring

theorem bitsVal_append (xs ys : List Bool) :
    bitsVal (xs ++ ys) = bitsVal xs * 2 ^ ys.length + bitsVal ys := by
  unfold bitsVal
  rw [List.foldl_append, bitsVal_foldl]
  rfl

theorem bitsOfByte_length (k b : Nat) : (bitsOfByte k b).length = k := by
  induction k generalizing b with
  | zero => simp [bitsOfByte]
  | succ k ih => simp [bitsOfByte, ih]

theorem bitsOfByte_val (k b : Nat) : bitsVal (bitsOfByte k b) = b % 2 ^ k := by
  induction k generalizing b with
  | zero => simp [bitsOfByte, bitsVal, Nat.mod_one]
  | succ k ih =>
    rw [bitsOfByte, bitsVal_append, ih]
    have h1 : b % 2 ^ (k + 1) = b % 2 + 2 * (b / 2 % 2 ^ k) := by
      rw [pow_succ, mul_comm (2 ^ k) 2, Nat.mod_mul]
    have h2 : bitsVal [b % 2 == 1] = b % 2 := by
      rcases Nat.mod_two_eq_zero_or_one b with h | h <;> simp [h, bitsVal]
    simp only [List.length_cons, List.length_nil, h2, pow_one]
    omega

/-- The big-endian byte-string value, as `BitArray(data).uint` computes it
for whole bytes. -/
theorem bytesToBits_val (data : List Nat) (hb : ∀ b ∈ data, b < 256) :
    bitsVal (bytesToBits data)
      = data.foldl (fun acc b => 256 * acc + b) 0 := by
  have main : ∀ l : List Nat, (∀ b ∈ l, b < 256) → ∀ acc : Nat,
      l.foldl (fun a b => 256 * a + b) acc
        = acc * 256 ^ l.length + bitsVal (bytesToBits l) := by
    intro l
    induction l with
    | nil => intro _ acc; simp [bytesToBits, bitsVal]
    | cons b rest ih =>
      intro hl acc
      have hbb : b < 256 := hl b (List.mem_cons_self b rest)
      have hrest : ∀ x ∈ rest, x < 256 := fun x hx =>
        hl x (List.mem_cons_of_mem b hx)
      simp only [List.foldl_cons, List.length_cons]
      rw [ih hrest, bytesToBits, bitsVal_append, bitsOfByte_val]
      have hlen : (bytesToBits rest).length = 8 * rest.length := by
        clear ih hrest hl
        induction rest with
        | nil => simp [bytesToBits]
        | cons c cs ihc =>
          simp [bytesToBits, bitsOfByte_length, ihc]
          ring
      rw [hlen, Nat.mod_eq_of_lt (by omega), pow_mul]
      norm_num
      ring
  rw [main data hb 0]
  simp

theorem bytesToBits_length (data : List Nat) :
    (bytesToBits data).length = 8 * data.length := by
  induction data with
  | nil => simp [bytesToBits]
  | cons b rest ih =>
    simp [bytesToBits, bitsOfByte_length, ih]
    ring

theorem bitStringVal_bitsToString (bs : List Bool) :
    bitStringVal (bitsToString bs) = bitsVal bs := by
  unfold bitStringVal bitsToString bitsVal
  rw [List.foldl_map]
  congr 1
  funext acc b
  cases b <;> simp

/-! ### Claim theorems -/

/-- C2: `task_id` is a deterministic pure function of the submitted URL:
`set_task_id` and `url_to_task_id` both yield the blake3 hex digest of the
UTF-8 encoded URL, two tasks with an identical URL get the same identifier,
and `set_task_id` additionally sets the status to `"pending"`. -/
theorem c2_task_id_deterministic (b3 : List Nat → String)
    (t t' : TaskResult) (h : t.url = t'.url) :
    (set_task_id b3 t).task_id = some (url_to_task_id b3 t.url)
      ∧ (set_task_id b3 t).status = some "pending"
      ∧ (set_task_id b3 t).task_id = (set_task_id b3 t').task_id
      ∧ ∀ u : String, url_to_task_id b3 u = b3 (utf8Bytes u) := by
  refine ⟨rfl, rfl, ?_, fun u => rfl⟩
  simp [set_task_id, h]

theorem c2_task_id_deterministic_witness :
    ({ url := "http://e.org/a" } : TaskResult).url
        = ({ url := "http://e.org/a", title := some "t" } : TaskResult).url
      ∧ ((set_task_id (fun _ => "d1") { url := "http://e.org/a" }).task_id
            = some (url_to_task_id (fun _ => "d1") "http://e.org/a")
          ∧ (set_task_id (fun _ => "d1") { url := "http://e.org/a" }).status
            = some "pending"
          ∧ (set_task_id (fun _ => "d1") { url := "http://e.org/a" }).task_id
            = (set_task_id (fun _ => "d1")
                { url := "http://e.org/a", title := some "t" }).task_id
          ∧ ∀ u : String,
              url_to_task_id (fun _ => "d1") u
                = (fun _ => "d1") (utf8Bytes u)) :=
  ⟨rfl, c2_task_id_deterministic (fun _ => "d1") { url := "http://e.org/a" }
    { url := "http://e.org/a", title := some "t" } rfl⟩

/-- C6: save/load round-trip: for every task with a set `task_id`, after
`save` the load succeeds and returns the saved record unchanged, whatever
record (if any) previously sat under that id. -/
theorem c6_save_load_roundtrip (tmpdir tid : String) (t : TaskResult)
    (fs : Store) (h : t.task_id = some tid) :
    load_task tmpdir tid (t.save tmpdir fs) = Except.ok t :=
  load_after_save tmpdir tid t fs h

theorem c6_save_load_roundtrip_witness :
    ({ url := "u", task_id := some "i" } : TaskResult).task_id = some "i"
      ∧ load_task "/tmp" "i"
          (TaskResult.save { url := "u", task_id := some "i" } "/tmp"
            (fun p => if p = task_id_to_task_path "/tmp" "i"
              then some Json.null else none))
        = Except.ok { url := "u", task_id := some "i" } :=
  ⟨rfl, c6_save_load_roundtrip "/tmp" "i" { url := "u", task_id := some "i" }
    (fun p => if p = task_id_to_task_path "/tmp" "i"
      then some Json.null else none) rfl⟩

/-- C7: `save` writes exactly one file, at the temp-directory path
determined solely by the task id (`task-<id>.json`), holding the JSON
serialization of the task with unset optional fields omitted. -/
theorem c7_persisted_layout (tmpdir : String) (t : TaskResult) (fs : Store) :
    (∀ p, p ≠ task_id_to_task_path tmpdir (taskIdStr t.task_id) →
        t.save tmpdir fs p = fs p)
      ∧ t.save tmpdir fs (task_id_to_task_path tmpdir (taskIdStr t.task_id))
          = some (serializeTask t)
      ∧ task_id_to_task_path tmpdir (taskIdStr t.task_id)
          = tmpdir ++ "/" ++ ("task-" ++ taskIdStr t.task_id ++ ".json")
      ∧ serializeTask t = Json.obj (taskFields t)
      ∧ List.lookup "url" (taskFields t) = some (Json.str t.url)
      ∧ List.lookup "title" (taskFields t) = t.title.map Json.str
      ∧ List.lookup "extra" (taskFields t) = t.extra.map Json.str
      ∧ List.lookup "task_id" (taskFields t) = t.task_id.map Json.str
      ∧ List.lookup "filename" (taskFields t) = t.filename.map Json.str
      ∧ List.lookup "status" (taskFields t) = t.status.map Json.str
      ∧ List.lookup "message" (taskFields t) = t.message.map Json.str
      ∧ List.lookup "result" (taskFields t) = t.result.map Json.obj := by
  refine ⟨fun p hp => ?_, ?_, rfl, rfl, lookup_url t, lookup_title t,
    lookup_extra t, lookup_task_id t, lookup_filename t, lookup_status t,
    lookup_message t, lookup_result t⟩
  · simp [TaskResult.save, hp]
  · simp [TaskResult.save]

theorem c7_persisted_layout_witness :
    (∀ p, p ≠ task_id_to_task_path "/tmp"
          (taskIdStr ({ url := "u", task_id := some "i" } : TaskResult).task_id) →
        TaskResult.save { url := "u", task_id := some "i" } "/tmp" emptyStore p
          = emptyStore p)
      ∧ TaskResult.save { url := "u", task_id := some "i" } "/tmp" emptyStore
          (task_id_to_task_path "/tmp"
            (taskIdStr ({ url := "u", task_id := some "i" } : TaskResult).task_id))
        = some (serializeTask { url := "u", task_id := some "i" }) :=
  ⟨(c7_persisted_layout "/tmp" { url := "u", task_id := some "i" } emptyStore).1,
    (c7_persisted_layout "/tmp" { url := "u", task_id := some "i" } emptyStore).2.1⟩

/-- C8: `load_task` fails with `NotFound` when the record is absent or its
contents do not deserialize as a task, and succeeds returning the task
otherwise. -/
theorem c8_load_not_found (tmpdir tid : String) (fs : Store) :
    (fs (task_id_to_task_path tmpdir tid) = none →
        load_task tmpdir tid fs = Except.error LoadError.notFound)
      ∧ (∀ j, fs (task_id_to_task_path tmpdir tid) = some j →
          parseTask j = none →
          load_task tmpdir tid fs = Except.error LoadError.notFound)
      ∧ (∀ j t, fs (task_id_to_task_path tmpdir tid) = some j →
          parseTask j = some t →
          load_task tmpdir tid fs = Except.ok t) := by
  refine ⟨fun h => ?_, fun j hj hp => ?_, fun j t hj hp => ?_⟩
  · simp [load_task, h]
  · simp [load_task, hj, hp]
  · simp [load_task, hj, hp]

theorem c8_load_not_found_witness :
    ((fun p => if p = task_id_to_task_path "/tmp" "a"
          then some Json.null else none) : Store)
        (task_id_to_task_path "/tmp" "b") = none
      ∧ ((fun p => if p = task_id_to_task_path "/tmp" "a"
            then some Json.null else none) : Store)
          (task_id_to_task_path "/tmp" "a") = some Json.null
      ∧ parseTask Json.null = none
      ∧ load_task "/tmp" "b"
          (fun p => if p = task_id_to_task_path "/tmp" "a"
            then some Json.null else none)
        = Except.error LoadError.notFound
      ∧ load_task "/tmp" "a"
          (fun p => if p = task_id_to_task_path "/tmp" "a"
            then some Json.null else none)
        = Except.error LoadError.notFound :=
  ⟨rfl, rfl, rfl,
    (c8_load_not_found "/tmp" "b" _).1 rfl,
    (c8_load_not_found "/tmp" "a" _).2.1 Json.null rfl rfl⟩

/-- C10: whenever the external decoder succeeds (with bytes), `code_to_int`
equals the big-endian numeral denoted by the `code_to_bits` bitstring; both
drop the one-byte header, so the bitstring has 8 bits per body byte. -/
theorem c10_int_matches_bits (decode : String → Option (List Nat))
    (code : String) (data : List Nat) (hd : decode code = some data)
    (hb : ∀ b ∈ data, b < 256) :
    ∃ bits : String,
      code_to_bits decode code = some bits
        ∧ code_to_int decode code = some (bitStringVal bits)
        ∧ bits.length = 8 * (data.length - 1) := by
  refine ⟨bitsToString (bytesToBits (data.drop 1)), ?_, ?_, ?_⟩
  · simp [code_to_bits, hd]
  · have hb' : ∀ b ∈ data.drop 1, b < 256 := fun b hbm =>
      hb b (List.drop_subset 1 data hbm)
    rw [bitStringVal_bitsToString, bytesToBits_val (data.drop 1) hb']
    simp [code_to_int, hd]
  · show (bitsToString (bytesToBits (data.drop 1))).data.length = _
    simp [bitsToString, bytesToBits_length]

theorem c10_int_matches_bits_witness :
    (fun _ : String => some [7, 200, 3]) "c" = some [7, 200, 3]
      ∧ (∀ b ∈ [7, 200, 3], b < 256)
      ∧ ∃ bits : String,
          code_to_bits (fun _ => some [7, 200, 3]) "c" = some bits
            ∧ code_to_int (fun _ => some [7, 200, 3]) "c"
                = some (bitStringVal bits)
            ∧ bits.length = 8 * ([7, 200, 3].length - 1) :=
  ⟨rfl, by decide,
    c10_int_matches_bits (fun _ => some [7, 200, 3]) "c" [7, 200, 3] rfl
      (by decide)⟩

/-- C3: for every run of the task runner on a task created `"pending"`, the
sequence of status values the task takes in memory, and the sequence it
persists, are subsequences of `pending, downloading, processing,
{success|failed}`; a terminal status is never followed by another status. -/
theorem c3_status_monotone (dl : Except String String)
    (comp : Except String Jobj) (isccNorm : Jobj → Jobj)
    (elapsed tmpdir : String) (t0 : TaskResult) (fs : Store)
    (h : t0.status = some "pending") :
    ((statusTrace
        (t0 :: (process_url dl comp isccNorm elapsed tmpdir t0 fs).memTasks)).Sublist
          (statusChain "success")
      ∨ (statusTrace
          (t0 :: (process_url dl comp isccNorm elapsed tmpdir t0 fs).memTasks)).Sublist
            (statusChain "failed"))
    ∧ ((statusTrace
          (process_url dl comp isccNorm elapsed tmpdir t0 fs).savedTasks).Sublist
            (statusChain "success")
        ∨ (statusTrace
            (process_url dl comp isccNorm elapsed tmpdir t0 fs).savedTasks).Sublist
              (statusChain "failed"))
    ∧ (∀ s ∈ (statusTrace
          (t0 :: (process_url dl comp isccNorm elapsed tmpdir t0 fs).memTasks)).dropLast,
        s ≠ "success" ∧ s ≠ "failed") := by
  cases dl with
  | error e =>
    refine ⟨Or.inr ?_, Or.inr ?_, ?_⟩ <;>
      simp [process_url, statusTrace, statusesOf, squeeze, h, statusChain]
  | ok local_path =>
    cases comp with
    | error e =>
      refine ⟨Or.inr ?_, Or.inr ?_, ?_⟩ <;>
        simp [process_url, statusTrace, statusesOf, squeeze, h, statusChain]
    | ok r =>
      refine ⟨Or.inl ?_, Or.inl ?_, ?_⟩ <;>
        simp [process_url, statusTrace, statusesOf, squeeze, h, statusChain]

theorem c3_status_monotone_witness :
    ({ url := "u", task_id := some "i", status := some "pending" }
        : TaskResult).status = some "pending"
      ∧ (((statusTrace
            ({ url := "u", task_id := some "i", status := some "pending" }
              :: (process_url (Except.ok "/tmp/f.png") (Except.ok [])
                  id "0.10" "/tmp"
                  { url := "u", task_id := some "i", status := some "pending" }
                  emptyStore).memTasks)).Sublist (statusChain "success")
          ∨ (statusTrace
              ({ url := "u", task_id := some "i", status := some "pending" }
                :: (process_url (Except.ok "/tmp/f.png") (Except.ok [])
                    id "0.10" "/tmp"
                    { url := "u", task_id := some "i", status := some "pending" }
                    emptyStore).memTasks)).Sublist (statusChain "failed"))
        ∧ ((statusTrace
              (process_url (Except.ok "/tmp/f.png") (Except.ok [])
                id "0.10" "/tmp"
                { url := "u", task_id := some "i", status := some "pending" }
                emptyStore).savedTasks).Sublist (statusChain "success")
            ∨ (statusTrace
                (process_url (Except.ok "/tmp/f.png") (Except.ok [])
                  id "0.10" "/tmp"
                  { url := "u", task_id := some "i", status := some "pending" }
                  emptyStore).savedTasks).Sublist (statusChain "failed"))
        ∧ (∀ s ∈ (statusTrace
              ({ url := "u", task_id := some "i", status := some "pending" }
                :: (process_url (Except.ok "/tmp/f.png") (Except.ok [])
                    id "0.10" "/tmp"
                    { url := "u", task_id := some "i", status := some "pending" }
                    emptyStore).memTasks)).dropLast,
            s ≠ "success" ∧ s ≠ "failed")) :=
  ⟨rfl, c3_status_monotone (Except.ok "/tmp/f.png") (Except.ok []) id "0.10"
    "/tmp" { url := "u", task_id := some "i", status := some "pending" }
    emptyStore rfl⟩

/-- C4: when the downloader raises, the runner moves the task straight from
`downloading` to `failed` with a non-empty diagnostic message, saves that
state, never reaches `processing` and never consults the computation, and
the record stays loadable afterwards. -/
theorem c4_download_failure (e : String) (comp : Except String Jobj)
    (isccNorm : Jobj → Jobj) (elapsed tmpdir tid : String)
    (t0 : TaskResult) (fs : Store) (h : t0.task_id = some tid) :
    (process_url (Except.error e) comp isccNorm elapsed tmpdir t0
        fs).finalTask.status = some "failed"
    ∧ (process_url (Except.error e) comp isccNorm elapsed tmpdir t0
        fs).finalTask.message = some ("download failed with " ++ e)
    ∧ 0 < ("download failed with " ++ e).length
    ∧ some "processing" ∉ ((process_url (Except.error e) comp isccNorm
        elapsed tmpdir t0 fs).memTasks.map TaskResult.status)
    ∧ (∀ c₁ c₂ : Except String Jobj,
        process_url (Except.error e) c₁ isccNorm elapsed tmpdir t0 fs
          = process_url (Except.error e) c₂ isccNorm elapsed tmpdir t0 fs)
    ∧ load_task tmpdir tid (process_url (Except.error e) comp isccNorm
        elapsed tmpdir t0 fs).finalStore
      = Except.ok (process_url (Except.error e) comp isccNorm elapsed tmpdir
          t0 fs).finalTask := by
  refine ⟨rfl, rfl, ?_, ?_, fun c₁ c₂ => rfl, ?_⟩
  · rw [String.length_append]
    have h20 : ("download failed with " : String).length = 21 := by decide
    omega
  · simp [process_url]
  · simp only [process_url]
    exact load_after_save tmpdir tid _ _ h

theorem c4_download_failure_witness :
    ({ url := "u", task_id := some "i", status := some "pending" }
        : TaskResult).task_id = some "i"
      ∧ ((process_url (Except.error "ConnectionError") (Except.ok []) id
            "0.10" "/tmp"
            { url := "u", task_id := some "i", status := some "pending" }
            emptyStore).finalTask.status = some "failed"
        ∧ (process_url (Except.error "ConnectionError") (Except.ok []) id
            "0.10" "/tmp"
            { url := "u", task_id := some "i", status := some "pending" }
            emptyStore).finalTask.message
            = some ("download failed with " ++ "ConnectionError")
        ∧ 0 < ("download failed with " ++ "ConnectionError").length
        ∧ some "processing" ∉ ((process_url (Except.error "ConnectionError")
            (Except.ok []) id "0.10" "/tmp"
            { url := "u", task_id := some "i", status := some "pending" }
            emptyStore).memTasks.map TaskResult.status)
        ∧ (∀ c₁ c₂ : Except String Jobj,
            process_url (Except.error "ConnectionError") c₁ id "0.10" "/tmp"
              { url := "u", task_id := some "i", status := some "pending" }
              emptyStore
            = process_url (Except.error "ConnectionError") c₂ id "0.10" "/tmp"
              { url := "u", task_id := some "i", status := some "pending" }
              emptyStore)
        ∧ load_task "/tmp" "i" (process_url (Except.error "ConnectionError")
            (Except.ok []) id "0.10" "/tmp"
            { url := "u", task_id := some "i", status := some "pending" }
            emptyStore).finalStore
          = Except.ok (process_url (Except.error "ConnectionError")
              (Except.ok []) id "0.10" "/tmp"
              { url := "u", task_id := some "i", status := some "pending" }
              emptyStore).finalTask) :=
  ⟨rfl, c4_download_failure "ConnectionError" (Except.ok []) id "0.10" "/tmp"
    "i" { url := "u", task_id := some "i", status := some "pending" }
    emptyStore rfl⟩

/-- C9: starting from a task whose `result` is unset, every in-memory
snapshot and every persisted record with `result` set has status
`"success"`; on the success transition `result` comes from the fingerprint
record the computation returned. -/
theorem c9_result_only_on_success (dl : Except String String)
    (comp : Except String Jobj) (isccNorm : Jobj → Jobj)
    (elapsed tmpdir : String) (t0 : TaskResult) (fs : Store)
    (h : t0.result = none) :
    (∀ s ∈ t0 :: (process_url dl comp isccNorm elapsed tmpdir t0 fs).memTasks,
        s.result ≠ none → s.status = some "success")
    ∧ (∀ s ∈ (process_url dl comp isccNorm elapsed tmpdir t0 fs).savedTasks,
        s.result ≠ none → s.status = some "success")
    ∧ (∀ p r, dl = Except.ok p → comp = Except.ok r →
        (process_url dl comp isccNorm elapsed tmpdir t0 fs).finalTask.result
            = some (isccNorm r)
          ∧ (process_url dl comp isccNorm elapsed tmpdir t0
              fs).finalTask.status = some "success") := by
  cases dl with
  | error e =>
    refine ⟨?_, ?_, ?_⟩ <;> simp [process_url, h]
  | ok local_path =>
    cases comp with
    | error e =>
      refine ⟨?_, ?_, ?_⟩ <;> simp [process_url, h]
    | ok r =>
      refine ⟨?_, ?_, ?_⟩ <;> simp [process_url, h]

theorem c9_result_only_on_success_witness :
    ({ url := "u", task_id := some "i", status := some "pending" }
        : TaskResult).result = none
      ∧ ((∀ s ∈ ({ url := "u", task_id := some "i", status := some "pending" }
              : TaskResult)
            :: (process_url (Except.ok "/tmp/f.png")
                (Except.ok [("iscc", Json.str "X")]) id "0.10" "/tmp"
                { url := "u", task_id := some "i", status := some "pending" }
                emptyStore).memTasks,
            s.result ≠ none → s.status = some "success")
        ∧ (∀ s ∈ (process_url (Except.ok "/tmp/f.png")
              (Except.ok [("iscc", Json.str "X")]) id "0.10" "/tmp"
              { url := "u", task_id := some "i", status := some "pending" }
              emptyStore).savedTasks,
            s.result ≠ none → s.status = some "success")
        ∧ (∀ p r, (Except.ok "/tmp/f.png"
              : Except String String) = Except.ok p →
            (Except.ok [("iscc", Json.str "X")]
              : Except String Jobj) = Except.ok r →
            (process_url (Except.ok "/tmp/f.png")
                (Except.ok [("iscc", Json.str "X")]) id "0.10" "/tmp"
                { url := "u", task_id := some "i", status := some "pending" }
                emptyStore).finalTask.result = some (id r)
              ∧ (process_url (Except.ok "/tmp/f.png")
                  (Except.ok [("iscc", Json.str "X")]) id "0.10" "/tmp"
                  { url := "u", task_id := some "i", status := some "pending" }
                  emptyStore).finalTask.status = some "success")) :=
  ⟨rfl, c9_result_only_on_success (Except.ok "/tmp/f.png")
    (Except.ok [("iscc", Json.str "X")]) id "0.10" "/tmp"
    { url := "u", task_id := some "i", status := some "pending" }
    emptyStore rfl⟩

/-- C5: the upload gate classifies from at most the 4096 leading bytes, and
an unsupported detected type is rejected with a 415 error naming the type,
before and independent of any parsing, temp storage or fingerprint work. -/
theorem c5_upload_gate (sniff : List Nat → String) (supported : List String)
    (pipeline : List Nat → String → String → Jobj) (stream : List Nat)
    (title extra : String) (h : classifyType sniff stream ∉ supported) :
    from_file sniff supported pipeline stream title extra
        = FromFileResult.rejected
            ⟨415, "Unsupported media type '" ++ classifyType sniff stream
              ++ "'. Please request support at "
              ++ "https://github.com/iscc/iscc-service/issues."⟩
      ∧ (∀ p₁ p₂ : List Nat → String → String → Jobj,
          from_file sniff supported p₁ stream title extra
            = from_file sniff supported p₂ stream title extra)
      ∧ (∀ s₂ : List Nat, s₂.take 4096 = stream.take 4096 →
          classifyType sniff s₂ = classifyType sniff stream)
      ∧ sniffInput stream = stream.take 4096
      ∧ (sniffInput stream).length ≤ 4096 := by
  refine ⟨?_, fun p₁ p₂ => ?_, fun s₂ hs => ?_, rfl, ?_⟩
  · simp only [from_file, classifyType] at h ⊢
    simp [h]
  · simp only [from_file, classifyType] at h ⊢
    simp [h]
  · simp [classifyType, sniffInput, hs]
  · simp [sniffInput]

theorem c5_upload_gate_witness :
    classifyType (fun _ => "application/x-msdownload") [77, 90, 144]
        ∉ ["image/png", "text/plain"]
      ∧ (from_file (fun _ => "application/x-msdownload")
            ["image/png", "text/plain"] (fun _ _ _ => []) [77, 90, 144]
            "t" "e"
          = FromFileResult.rejected
              ⟨415, "Unsupported media type '"
                ++ classifyType (fun _ => "application/x-msdownload")
                    [77, 90, 144]
                ++ "'. Please request support at "
                ++ "https://github.com/iscc/iscc-service/issues."⟩
        ∧ (∀ p₁ p₂ : List Nat → String → String → Jobj,
            from_file (fun _ => "application/x-msdownload")
              ["image/png", "text/plain"] p₁ [77, 90, 144] "t" "e"
            = from_file (fun _ => "application/x-msdownload")
              ["image/png", "text/plain"] p₂ [77, 90, 144] "t" "e")
        ∧ (∀ s₂ : List Nat, s₂.take 4096 = [77, 90, 144].take 4096 →
            classifyType (fun _ => "application/x-msdownload") s₂
              = classifyType (fun _ => "application/x-msdownload")
                  [77, 90, 144])
        ∧ sniffInput [77, 90, 144] = [77, 90, 144].take 4096
        ∧ (sniffInput [77, 90, 144]).length ≤ 4096) :=
  ⟨by decide, c5_upload_gate (fun _ => "application/x-msdownload")
    ["image/png", "text/plain"] (fun _ _ _ => []) [77, 90, 144] "t" "e"
    (by decide)⟩

/-- C1 (failing run): when the computation raises, the runner sets the
in-memory status to `failed` with a message but returns without persisting:
the last record passed to `save` carries status `processing`, and a
subsequent load of the final store still returns a record stuck at
`processing`, not the terminal state the spec requires to be saved. -/
theorem c1_processing_failure_not_persisted :
    (process_url (Except.ok "/tmp/a.png") (Except.error "ValueError") id
        "0.10" "/tmp"
        { url := "http://e.org/a.png", task_id := some "tid0",
          status := some "pending" } emptyStore).finalTask.status
        = some "failed"
      ∧ (process_url (Except.ok "/tmp/a.png") (Except.error "ValueError") id
          "0.10" "/tmp"
          { url := "http://e.org/a.png", task_id := some "tid0",
            status := some "pending" } emptyStore).finalTask.message
        = some "processing failed with ValueError"
      ∧ statusesOf (process_url (Except.ok "/tmp/a.png")
          (Except.error "ValueError") id "0.10" "/tmp"
          { url := "http://e.org/a.png", task_id := some "tid0",
            status := some "pending" } emptyStore).savedTasks
        = ["downloading", "processing"]
      ∧ load_task "/tmp" "tid0" (process_url (Except.ok "/tmp/a.png")
          (Except.error "ValueError") id "0.10" "/tmp"
          { url := "http://e.org/a.png", task_id := some "tid0",
            status := some "pending" } emptyStore).finalStore
        = Except.ok
            { url := "http://e.org/a.png", task_id := some "tid0",
              status := some "processing", filename := some "a.png" } := by
  refine ⟨rfl, rfl, ?_, ?_⟩
  · simp [process_url, statusesOf]
  · have hsave : (process_url (Except.ok "/tmp/a.png")
        (Except.error "ValueError") id "0.10" "/tmp"
        { url := "http://e.org/a.png", task_id := some "tid0",
          status := some "pending" } emptyStore).finalStore
        = TaskResult.save
            { url := "http://e.org/a.png", task_id := some "tid0",
              status := some "processing", filename := some "a.png" }
            "/tmp"
            (TaskResult.save
              { url := "http://e.org/a.png", task_id := some "tid0",
                status := some "downloading" } "/tmp" emptyStore) := by
      have hbn : basename "/tmp/a.png" = "a.png" := by decide
      simp [process_url, hbn]
    rw [hsave]
    exact load_after_save "/tmp" "tid0" _ _ rfl

end IsccService
